import Mathlib

/-!
Verification of the doctor-voice proof-of-concept server (src/server.js).

The server exposes a single upload-processing endpoint.  Its pipeline is:
multer stores the upload, ffmpeg transcodes it to WAV, an external
transcription service produces the raw transcript, an external chat service
produces the doctor summary, temp files are deleted, and a JSON response
is sent.  Every external effect is modelled by an oracle environment `Env`
so that each run of the handler is a pure function of the request, the
oracle and the initial file-system state.
-/

namespace DoctorVoice

/-- JavaScript `v || d` for an optional string: `undefined` and the empty
string are falsy, so both select the default `d`. -/
def jsOr (v : Option String) (d : String) : String :=
  match v with
  | none => d
  | some s => if s = "" then d else s

/-- JavaScript `String.prototype.trim()`: strip leading and trailing
whitespace (space, tab, carriage return, newline — the whitespace kinds
that occur in the language tags). -/
def jsTrim (s : String) : String :=
  ⟨((s.data.dropWhile Char.isWhitespace).reverse.dropWhile Char.isWhitespace).reverse⟩

/-- `mapLanguage` from src/server.js lines 46-63: map the UI language
selection to a transcription language code; `auto` and anything
unrecognized fall to the `default` case, returning `null` (here `none`),
letting the model auto-detect. -/
def mapLanguage (uiLang : String) : Option String :=
  match uiLang with
  | "kn-en" => some "kn"
  | "hi-en" => some "hi"
  | "ta-en" => some "ta"
  | "te-en" => some "te"
  | "en" => some "en"
  | _ => none

/-- The file system as the list of existing paths. -/
abbrev Fs := List String

/-- `fs.existsSync`. -/
def fsExists (fs : Fs) (p : String) : Bool := fs.contains p

/-- `fs.unlinkSync` (successful case): the path no longer exists. -/
def fsUnlink (fs : Fs) (p : String) : Fs := fs.filter (fun q => q != p)

/-- A file is written at `p` (multer storing the upload, ffmpeg writing
the WAV). -/
def fsCreate (fs : Fs) (p : String) : Fs :=
  if fs.contains p then fs else p :: fs

/-- The incoming request: `req.file?.path` (`none` when no `audio` part
was uploaded) and `req.body.language` (`none` when the field is absent). -/
structure Request where
  file : Option String
  language : Option String
deriving DecidableEq

/-- The response sent through `res.json`: Express sends HTTP 200 unless a
status was set, and this handler never sets one. -/
structure Response where
  status : Nat
  raw : String
  doctorSummary : String
deriving DecidableEq

/-- Payload of `client.audio.transcriptions.create`: the model name and
the optional `language` field (present exactly when `langCode` was
truthy, src/server.js lines 93-95). -/
structure TranscriptionCall where
  model : String
  language : Option String
deriving DecidableEq

/-- Payload of `client.chat.completions.create`: model, temperature and
the single user-message prompt. -/
structure ChatCall where
  model : String
  temperature : Nat
  prompt : String
deriving DecidableEq

/-- External calls attempted during one run of the handler. -/
structure Trace where
  transcodeAttempts : Nat
  transcriptionCalls : List TranscriptionCall
  chatCalls : List ChatCall
deriving DecidableEq

def emptyTrace : Trace := ⟨0, [], []⟩

/-- Oracle for the run's external effects: whether `convertToWav`
succeeds, what the transcription call returns (`none` = it throws;
`some t` = it resolves with `transcription.text = t`, where the inner
`Option` models `text` being `undefined`), what the chat call returns
(`none` = it throws), and which `unlinkSync` calls throw. -/
structure Env where
  transcodeOk : Bool
  transcriptionText : Option (Option String)
  summaryText : Option String
  unlinkFails : String → Bool

/-- The medical prompt template (src/server.js lines 104-142) split at the
interpolation point: everything before `rawText`, including the opening
quote around it. -/
def medicalPromptPre : String :=
  "\n"
  ++ "You are a clinical assistant. Convert the doctor's spoken instructions (which may be in a mix of Kannada + English or other Indian language + English) into a clean, professional medical summary suitable for a patient's record.\n"
  ++ "\n"
  ++ "CONSTRAINTS:\n"
  ++ "- OUTPUT MUST BE IN CLEAR ENGLISH ONLY.\n"
  ++ "- DO NOT copy slang or raw phonetic Kannada/English like \"togo\", \"ಸ್ಟ್ರಾಂಗರ ಪೇಂಕಿಲರ್ಸ್\", etc.\n"
  ++ "- DO NOT output Chinese, Tamil, Hindi, or any other script in the final summary. English only.\n"
  ++ "- Convert all spoken content into polished, grammatically correct medical English.\n"
  ++ "- If a medicine name is clearly and correctly heard (e.g. \"Dolo 650\", \"Amoxicillin\"), you may include it.\n"
  ++ "- If the medicine name is unclear or distorted, DO NOT guess it. Instead write:\n"
  ++ "  \"⚠️ A medicine was prescribed; name not clearly captured from audio — please verify.\"\n"
  ++ "- You may generalize clearly implied medicines as \"a stronger painkiller\", \"an antibiotic\", etc., but only if the doctor clearly implies it.\n"
  ++ "- DO NOT invent new medicines, doses, diagnoses, or causes.\n"
  ++ "- Only mention causes/suspicions the doctor clearly referred to (e.g. \"likely due to street food\", \"possibly gastritis\").\n"
  ++ "- This tool is for drafting; the doctor will always review and edit before use.\n"
  ++ "\n"
  ++ "Produce output EXACTLY in this structure (in English):\n"
  ++ "\n"
  ++ "### Assessment & Plan\n"
  ++ "\n"
  ++ "**Chief Complaint:**  \n"
  ++ "- (One or two bullet points summarizing the main problem.)\n"
  ++ "\n"
  ++ "**Probable Cause:**  \n"
  ++ "- (Only if the doctor clearly suggested a likely cause. If not mentioned, omit this entire section.)\n"
  ++ "\n"
  ++ "**Medication:**  \n"
  ++ "- (List each medicine and dosing instructions as understood. If any medicine name is unclear, use the verification warning.)\n"
  ++ "\n"
  ++ "**Diet Advice:**  \n"
  ++ "- (Summarize any food / fluid instructions the doctor mentioned. If none, you may omit this section.)\n"
  ++ "\n"
  ++ "**Follow-up:**  \n"
  ++ "- (Summarize follow-up/review plan only if mentioned.)\n"
  ++ "\n"
  ++ "Now rewrite the following raw doctor speech into that structure, respecting all rules above:\n"
  ++ "\n"
  ++ "\""

/-- The template text after the interpolated `rawText`: the closing quote,
the final newline and the indentation before the closing backtick. -/
def medicalPromptSuf : String := "\"\n        "

/-- `medicalPrompt` as built on src/server.js lines 104-142: the fixed
template with the raw transcript interpolated between the quotes. -/
def medicalPrompt (rawText : String) : String :=
  medicalPromptPre ++ rawText ++ medicalPromptSuf

def noAudioResponse : Response := ⟨200, "", "No audio received."⟩

def failureResponse : Response := ⟨200, "", "Processing failed."⟩

/-- The cleanup statement for the WAV file:
`if (wavPath && fs.existsSync(wavPath)) fs.unlinkSync(wavPath);`.
If the unlink throws, the error propagates to the cleanup `catch` and the
file remains. -/
def cleanupWav (env : Env) (wavPath : Option String) (fs : Fs) : Fs :=
  match wavPath with
  | none => fs
  | some w =>
    if fsExists fs w then
      if env.unlinkFails w then fs else fsUnlink fs w
    else fs

/-- The guarded cleanup block (src/server.js lines 153-158 and 170-175):
both unlinks run sequentially inside one try; if deleting `inputPath`
throws, the catch swallows the error and the WAV deletion is never
attempted. -/
def cleanupBlock (env : Env) (inputPath wavPath : Option String) (fs : Fs) : Fs :=
  match inputPath with
  | none => cleanupWav env wavPath fs
  | some p =>
    if fsExists fs p then
      if env.unlinkFails p then fs
      else cleanupWav env wavPath (fsUnlink fs p)
    else cleanupWav env wavPath fs

/-- Result of one run of the `/transcribe` handler: the response sent,
the final file-system state, and the external calls attempted. -/
structure RunResult where
  response : Response
  fs : Fs
  trace : Trace

/-- The `POST /transcribe` handler (src/server.js lines 65-182), with
multer's storing of the upload included as the step before the handler
body.  Any stage failure jumps to the catch handler, which attempts
cleanup and sends the fixed failure response.  On transcode failure the
WAV file is taken as not created (the `existsSync` guard makes the
cleanup insensitive to this). -/
def transcribeHandler (env : Env) (req : Request) (fs0 : Fs) : RunResult :=
  match req.file with
  | none => ⟨noAudioResponse, fs0, emptyTrace⟩
  | some inputPath =>
    let fsUp := fsCreate fs0 inputPath
    let wavPath := inputPath ++ ".wav"
    if env.transcodeOk then
      let fs1 := fsCreate fsUp wavPath
      let uiLanguage := jsTrim (jsOr req.language "kn-en")
      let langCode := mapLanguage uiLanguage
      let tCall : TranscriptionCall := ⟨"gpt-4o-transcribe", langCode⟩
      match env.transcriptionText with
      | none =>
        let fs2 := cleanupBlock env (some inputPath) (some wavPath) fs1
        ⟨failureResponse, fs2, ⟨1, [tCall], []⟩⟩
      | some text =>
        let rawText := jsOr text ""
        let cCall : ChatCall := ⟨"gpt-4o", 0, medicalPrompt rawText⟩
        match env.summaryText with
        | none =>
          let fs2 := cleanupBlock env (some inputPath) (some wavPath) fs1
          ⟨failureResponse, fs2, ⟨1, [tCall], [cCall]⟩⟩
        | some doctorSummary =>
          let fs2 := cleanupBlock env (some inputPath) (some wavPath) fs1
          ⟨⟨200, rawText, doctorSummary⟩, fs2, ⟨1, [tCall], [cCall]⟩⟩
    else
      let fs2 := cleanupBlock env (some inputPath) (some wavPath) fsUp
      ⟨failureResponse, fs2, ⟨1, [], []⟩⟩

/-- POST routes registered on the Express app: only `/transcribe`
(src/server.js line 65). -/
def registeredPostRoutes : List String := ["/transcribe"]

/-- The path the browser client posts the recording to
(`fetch("/process-audio", ...)` in the client script). -/
def clientUploadPath : String := "/process-audio"


def c1WEnv : Env := ⟨true, some (some "bp normal"), none, fun _ => false⟩

def c2BadEnv : Env := ⟨true, some (some "hello doctor"), some "summary", fun q => q == "u"⟩

def c2OkEnv : Env := ⟨true, some (some "hello doctor"), some "summary", fun _ => false⟩

def c3WEnv : Env := ⟨true, some (some "hello"), some "summary", fun _ => false⟩

def c4WEnv : Env := ⟨true, some (some "hello"), some "summary", fun _ => false⟩

def c5WEnv : Env := ⟨true, some (some "bp and stomach pain"), some "summary text", fun _ => false⟩

def c8WEnv : Env := ⟨true, some (some "hello"), some "summary", fun _ => false⟩

def c10WEnv : Env := ⟨true, some (some "hello"), some "summary", fun q => q == "u"⟩

/-! Helper lemmas. -/

theorem strAppend_assoc (a b c : String) : a ++ b ++ c = a ++ (b ++ c) := by
  rcases a with ⟨la⟩; rcases b with ⟨lb⟩; rcases c with ⟨lc⟩
  show String.mk (la ++ lb ++ lc) = String.mk (la ++ (lb ++ lc))
  rw [List.append_assoc]

theorem medicalPrompt_mentions_of_split (A phrase B t : String)
    (h : medicalPromptPre = A ++ phrase ++ B) :
    ∃ a b, medicalPrompt t = a ++ phrase ++ b := by
  refine ⟨A, B ++ t ++ medicalPromptSuf, ?_⟩
  rw [medicalPrompt, h]
  simp only [strAppend_assoc]

theorem promptSplit1 : medicalPromptPre =
    ("\n"
      ++ "You are a clinical assistant. Convert the doctor's spoken instructions (which may be in a mix of Kannada + English or other Indian language + English) into a clean, professional medical summary suitable for a patient's record.\n"
      ++ "\n"
      ++ "CONSTRAINTS:\n")
    ++ "- OUTPUT MUST BE IN CLEAR ENGLISH ONLY.\n"
    ++ ("- DO NOT copy slang or raw phonetic Kannada/English like \"togo\", \"ಸ್ಟ್ರಾಂಗರ ಪೇಂಕಿಲರ್ಸ್\", etc.\n"
      ++ "- DO NOT output Chinese, Tamil, Hindi, or any other script in the final summary. English only.\n"
      ++ "- Convert all spoken content into polished, grammatically correct medical English.\n"
      ++ "- If a medicine name is clearly and correctly heard (e.g. \"Dolo 650\", \"Amoxicillin\"), you may include it.\n"
      ++ "- If the medicine name is unclear or distorted, DO NOT guess it. Instead write:\n"
      ++ "  \"⚠️ A medicine was prescribed; name not clearly captured from audio — please verify.\"\n"
      ++ "- You may generalize clearly implied medicines as \"a stronger painkiller\", \"an antibiotic\", etc., but only if the doctor clearly implies it.\n"
      ++ "- DO NOT invent new medicines, doses, diagnoses, or causes.\n"
      ++ "- Only mention causes/suspicions the doctor clearly referred to (e.g. \"likely due to street food\", \"possibly gastritis\").\n"
      ++ "- This tool is for drafting; the doctor will always review and edit before use.\n"
      ++ "\n"
      ++ "Produce output EXACTLY in this structure (in English):\n"
      ++ "\n"
      ++ "### Assessment & Plan\n"
      ++ "\n"
      ++ "**Chief Complaint:**  \n"
      ++ "- (One or two bullet points summarizing the main problem.)\n"
      ++ "\n"
      ++ "**Probable Cause:**  \n"
      ++ "- (Only if the doctor clearly suggested a likely cause. If not mentioned, omit this entire section.)\n"
      ++ "\n"
      ++ "**Medication:**  \n"
      ++ "- (List each medicine and dosing instructions as understood. If any medicine name is unclear, use the verification warning.)\n"
      ++ "\n"
      ++ "**Diet Advice:**  \n"
      ++ "- (Summarize any food / fluid instructions the doctor mentioned. If none, you may omit this section.)\n"
      ++ "\n"
      ++ "**Follow-up:**  \n"
      ++ "- (Summarize follow-up/review plan only if mentioned.)\n"
      ++ "\n"
      ++ "Now rewrite the following raw doctor speech into that structure, respecting all rules above:\n"
      ++ "\n"
      ++ "\"") := by
  simp only [medicalPromptPre, strAppend_assoc]

theorem promptSplit2 : medicalPromptPre =
    ("\n"
      ++ "You are a clinical assistant. Convert the doctor's spoken instructions (which may be in a mix of Kannada + English or other Indian language + English) into a clean, professional medical summary suitable for a patient's record.\n"
      ++ "\n"
      ++ "CONSTRAINTS:\n"
      ++ "- OUTPUT MUST BE IN CLEAR ENGLISH ONLY.\n"
      ++ "- DO NOT copy slang or raw phonetic Kannada/English like \"togo\", \"ಸ್ಟ್ರಾಂಗರ ಪೇಂಕಿಲರ್ಸ್\", etc.\n"
      ++ "- DO NOT output Chinese, Tamil, Hindi, or any other script in the final summary. English only.\n"
      ++ "- Convert all spoken content into polished, grammatically correct medical English.\n"
      ++ "- If a medicine name is clearly and correctly heard (e.g. \"Dolo 650\", \"Amoxicillin\"), you may include it.\n"
      ++ "- If the medicine name is unclear or distorted, DO NOT guess it. Instead write:\n"
      ++ "  \"⚠️ A medicine was prescribed; name not clearly captured from audio — please verify.\"\n"
      ++ "- You may generalize clearly implied medicines as \"a stronger painkiller\", \"an antibiotic\", etc., but only if the doctor clearly implies it.\n")
    ++ "- DO NOT invent new medicines, doses, diagnoses, or causes.\n"
    ++ ("- Only mention causes/suspicions the doctor clearly referred to (e.g. \"likely due to street food\", \"possibly gastritis\").\n"
      ++ "- This tool is for drafting; the doctor will always review and edit before use.\n"
      ++ "\n"
      ++ "Produce output EXACTLY in this structure (in English):\n"
      ++ "\n"
      ++ "### Assessment & Plan\n"
      ++ "\n"
      ++ "**Chief Complaint:**  \n"
      ++ "- (One or two bullet points summarizing the main problem.)\n"
      ++ "\n"
      ++ "**Probable Cause:**  \n"
      ++ "- (Only if the doctor clearly suggested a likely cause. If not mentioned, omit this entire section.)\n"
      ++ "\n"
      ++ "**Medication:**  \n"
      ++ "- (List each medicine and dosing instructions as understood. If any medicine name is unclear, use the verification warning.)\n"
      ++ "\n"
      ++ "**Diet Advice:**  \n"
      ++ "- (Summarize any food / fluid instructions the doctor mentioned. If none, you may omit this section.)\n"
      ++ "\n"
      ++ "**Follow-up:**  \n"
      ++ "- (Summarize follow-up/review plan only if mentioned.)\n"
      ++ "\n"
      ++ "Now rewrite the following raw doctor speech into that structure, respecting all rules above:\n"
      ++ "\n"
      ++ "\"") := by
  simp only [medicalPromptPre, strAppend_assoc]

theorem promptSplit3 : medicalPromptPre =
    ("\n"
      ++ "You are a clinical assistant. Convert the doctor's spoken instructions (which may be in a mix of Kannada + English or other Indian language + English) into a clean, professional medical summary suitable for a patient's record.\n"
      ++ "\n"
      ++ "CONSTRAINTS:\n"
      ++ "- OUTPUT MUST BE IN CLEAR ENGLISH ONLY.\n"
      ++ "- DO NOT copy slang or raw phonetic Kannada/English like \"togo\", \"ಸ್ಟ್ರಾಂಗರ ಪೇಂಕಿಲರ್ಸ್\", etc.\n"
      ++ "- DO NOT output Chinese, Tamil, Hindi, or any other script in the final summary. English only.\n"
      ++ "- Convert all spoken content into polished, grammatically correct medical English.\n"
      ++ "- If a medicine name is clearly and correctly heard (e.g. \"Dolo 650\", \"Amoxicillin\"), you may include it.\n"
      ++ "- If the medicine name is unclear or distorted, DO NOT guess it. Instead write:\n")
    ++ "  \"⚠️ A medicine was prescribed; name not clearly captured from audio — please verify.\"\n"
    ++ ("- You may generalize clearly implied medicines as \"a stronger painkiller\", \"an antibiotic\", etc., but only if the doctor clearly implies it.\n"
      ++ "- DO NOT invent new medicines, doses, diagnoses, or causes.\n"
      ++ "- Only mention causes/suspicions the doctor clearly referred to (e.g. \"likely due to street food\", \"possibly gastritis\").\n"
      ++ "- This tool is for drafting; the doctor will always review and edit before use.\n"
      ++ "\n"
      ++ "Produce output EXACTLY in this structure (in English):\n"
      ++ "\n"
      ++ "### Assessment & Plan\n"
      ++ "\n"
      ++ "**Chief Complaint:**  \n"
      ++ "- (One or two bullet points summarizing the main problem.)\n"
      ++ "\n"
      ++ "**Probable Cause:**  \n"
      ++ "- (Only if the doctor clearly suggested a likely cause. If not mentioned, omit this entire section.)\n"
      ++ "\n"
      ++ "**Medication:**  \n"
      ++ "- (List each medicine and dosing instructions as understood. If any medicine name is unclear, use the verification warning.)\n"
      ++ "\n"
      ++ "**Diet Advice:**  \n"
      ++ "- (Summarize any food / fluid instructions the doctor mentioned. If none, you may omit this section.)\n"
      ++ "\n"
      ++ "**Follow-up:**  \n"
      ++ "- (Summarize follow-up/review plan only if mentioned.)\n"
      ++ "\n"
      ++ "Now rewrite the following raw doctor speech into that structure, respecting all rules above:\n"
      ++ "\n"
      ++ "\"") := by
  simp only [medicalPromptPre, strAppend_assoc]

theorem promptSplit4 : medicalPromptPre =
    ("\n"
      ++ "You are a clinical assistant. Convert the doctor's spoken instructions (which may be in a mix of Kannada + English or other Indian language + English) into a clean, professional medical summary suitable for a patient's record.\n"
      ++ "\n"
      ++ "CONSTRAINTS:\n"
      ++ "- OUTPUT MUST BE IN CLEAR ENGLISH ONLY.\n"
      ++ "- DO NOT copy slang or raw phonetic Kannada/English like \"togo\", \"ಸ್ಟ್ರಾಂಗರ ಪೇಂಕಿಲರ್ಸ್\", etc.\n"
      ++ "- DO NOT output Chinese, Tamil, Hindi, or any other script in the final summary. English only.\n"
      ++ "- Convert all spoken content into polished, grammatically correct medical English.\n"
      ++ "- If a medicine name is clearly and correctly heard (e.g. \"Dolo 650\", \"Amoxicillin\"), you may include it.\n"
      ++ "- If the medicine name is unclear or distorted, DO NOT guess it. Instead write:\n"
      ++ "  \"⚠️ A medicine was prescribed; name not clearly captured from audio — please verify.\"\n"
      ++ "- You may generalize clearly implied medicines as \"a stronger painkiller\", \"an antibiotic\", etc., but only if the doctor clearly implies it.\n"
      ++ "- DO NOT invent new medicines, doses, diagnoses, or causes.\n"
      ++ "- Only mention causes/suspicions the doctor clearly referred to (e.g. \"likely due to street food\", \"possibly gastritis\").\n"
      ++ "- This tool is for drafting; the doctor will always review and edit before use.\n"
      ++ "\n"
      ++ "Produce output EXACTLY in this structure (in English):\n"
      ++ "\n"
      ++ "### Assessment & Plan\n"
      ++ "\n")
    ++ "**Chief Complaint:**  \n"
    ++ ("- (One or two bullet points summarizing the main problem.)\n"
      ++ "\n"
      ++ "**Probable Cause:**  \n"
      ++ "- (Only if the doctor clearly suggested a likely cause. If not mentioned, omit this entire section.)\n"
      ++ "\n"
      ++ "**Medication:**  \n"
      ++ "- (List each medicine and dosing instructions as understood. If any medicine name is unclear, use the verification warning.)\n"
      ++ "\n"
      ++ "**Diet Advice:**  \n"
      ++ "- (Summarize any food / fluid instructions the doctor mentioned. If none, you may omit this section.)\n"
      ++ "\n"
      ++ "**Follow-up:**  \n"
      ++ "- (Summarize follow-up/review plan only if mentioned.)\n"
      ++ "\n"
      ++ "Now rewrite the following raw doctor speech into that structure, respecting all rules above:\n"
      ++ "\n"
      ++ "\"") := by
  simp only [medicalPromptPre, strAppend_assoc]

theorem promptSplit5 : medicalPromptPre =
    ("\n"
      ++ "You are a clinical assistant. Convert the doctor's spoken instructions (which may be in a mix of Kannada + English or other Indian language + English) into a clean, professional medical summary suitable for a patient's record.\n"
      ++ "\n"
      ++ "CONSTRAINTS:\n"
      ++ "- OUTPUT MUST BE IN CLEAR ENGLISH ONLY.\n"
      ++ "- DO NOT copy slang or raw phonetic Kannada/English like \"togo\", \"ಸ್ಟ್ರಾಂಗರ ಪೇಂಕಿಲರ್ಸ್\", etc.\n"
      ++ "- DO NOT output Chinese, Tamil, Hindi, or any other script in the final summary. English only.\n"
      ++ "- Convert all spoken content into polished, grammatically correct medical English.\n"
      ++ "- If a medicine name is clearly and correctly heard (e.g. \"Dolo 650\", \"Amoxicillin\"), you may include it.\n"
      ++ "- If the medicine name is unclear or distorted, DO NOT guess it. Instead write:\n"
      ++ "  \"⚠️ A medicine was prescribed; name not clearly captured from audio — please verify.\"\n"
      ++ "- You may generalize clearly implied medicines as \"a stronger painkiller\", \"an antibiotic\", etc., but only if the doctor clearly implies it.\n"
      ++ "- DO NOT invent new medicines, doses, diagnoses, or causes.\n"
      ++ "- Only mention causes/suspicions the doctor clearly referred to (e.g. \"likely due to street food\", \"possibly gastritis\").\n"
      ++ "- This tool is for drafting; the doctor will always review and edit before use.\n"
      ++ "\n"
      ++ "Produce output EXACTLY in this structure (in English):\n"
      ++ "\n"
      ++ "### Assessment & Plan\n"
      ++ "\n"
      ++ "**Chief Complaint:**  \n"
      ++ "- (One or two bullet points summarizing the main problem.)\n"
      ++ "\n")
    ++ "**Probable Cause:**  \n"
    ++ ("- (Only if the doctor clearly suggested a likely cause. If not mentioned, omit this entire section.)\n"
      ++ "\n"
      ++ "**Medication:**  \n"
      ++ "- (List each medicine and dosing instructions as understood. If any medicine name is unclear, use the verification warning.)\n"
      ++ "\n"
      ++ "**Diet Advice:**  \n"
      ++ "- (Summarize any food / fluid instructions the doctor mentioned. If none, you may omit this section.)\n"
      ++ "\n"
      ++ "**Follow-up:**  \n"
      ++ "- (Summarize follow-up/review plan only if mentioned.)\n"
      ++ "\n"
      ++ "Now rewrite the following raw doctor speech into that structure, respecting all rules above:\n"
      ++ "\n"
      ++ "\"") := by
  simp only [medicalPromptPre, strAppend_assoc]

theorem promptSplit6 : medicalPromptPre =
    ("\n"
      ++ "You are a clinical assistant. Convert the doctor's spoken instructions (which may be in a mix of Kannada + English or other Indian language + English) into a clean, professional medical summary suitable for a patient's record.\n"
      ++ "\n"
      ++ "CONSTRAINTS:\n"
      ++ "- OUTPUT MUST BE IN CLEAR ENGLISH ONLY.\n"
      ++ "- DO NOT copy slang or raw phonetic Kannada/English like \"togo\", \"ಸ್ಟ್ರಾಂಗರ ಪೇಂಕಿಲರ್ಸ್\", etc.\n"
      ++ "- DO NOT output Chinese, Tamil, Hindi, or any other script in the final summary. English only.\n"
      ++ "- Convert all spoken content into polished, grammatically correct medical English.\n"
      ++ "- If a medicine name is clearly and correctly heard (e.g. \"Dolo 650\", \"Amoxicillin\"), you may include it.\n"
      ++ "- If the medicine name is unclear or distorted, DO NOT guess it. Instead write:\n"
      ++ "  \"⚠️ A medicine was prescribed; name not clearly captured from audio — please verify.\"\n"
      ++ "- You may generalize clearly implied medicines as \"a stronger painkiller\", \"an antibiotic\", etc., but only if the doctor clearly implies it.\n"
      ++ "- DO NOT invent new medicines, doses, diagnoses, or causes.\n"
      ++ "- Only mention causes/suspicions the doctor clearly referred to (e.g. \"likely due to street food\", \"possibly gastritis\").\n"
      ++ "- This tool is for drafting; the doctor will always review and edit before use.\n"
      ++ "\n"
      ++ "Produce output EXACTLY in this structure (in English):\n"
      ++ "\n"
      ++ "### Assessment & Plan\n"
      ++ "\n"
      ++ "**Chief Complaint:**  \n"
      ++ "- (One or two bullet points summarizing the main problem.)\n"
      ++ "\n"
      ++ "**Probable Cause:**  \n"
      ++ "- (Only if the doctor clearly suggested a likely cause. If not mentioned, omit this entire section.)\n"
      ++ "\n")
    ++ "**Medication:**  \n"
    ++ ("- (List each medicine and dosing instructions as understood. If any medicine name is unclear, use the verification warning.)\n"
      ++ "\n"
      ++ "**Diet Advice:**  \n"
      ++ "- (Summarize any food / fluid instructions the doctor mentioned. If none, you may omit this section.)\n"
      ++ "\n"
      ++ "**Follow-up:**  \n"
      ++ "- (Summarize follow-up/review plan only if mentioned.)\n"
      ++ "\n"
      ++ "Now rewrite the following raw doctor speech into that structure, respecting all rules above:\n"
      ++ "\n"
      ++ "\"") := by
  simp only [medicalPromptPre, strAppend_assoc]

theorem promptSplit7 : medicalPromptPre =
    ("\n"
      ++ "You are a clinical assistant. Convert the doctor's spoken instructions (which may be in a mix of Kannada + English or other Indian language + English) into a clean, professional medical summary suitable for a patient's record.\n"
      ++ "\n"
      ++ "CONSTRAINTS:\n"
      ++ "- OUTPUT MUST BE IN CLEAR ENGLISH ONLY.\n"
      ++ "- DO NOT copy slang or raw phonetic Kannada/English like \"togo\", \"ಸ್ಟ್ರಾಂಗರ ಪೇಂಕಿಲರ್ಸ್\", etc.\n"
      ++ "- DO NOT output Chinese, Tamil, Hindi, or any other script in the final summary. English only.\n"
      ++ "- Convert all spoken content into polished, grammatically correct medical English.\n"
      ++ "- If a medicine name is clearly and correctly heard (e.g. \"Dolo 650\", \"Amoxicillin\"), you may include it.\n"
      ++ "- If the medicine name is unclear or distorted, DO NOT guess it. Instead write:\n"
      ++ "  \"⚠️ A medicine was prescribed; name not clearly captured from audio — please verify.\"\n"
      ++ "- You may generalize clearly implied medicines as \"a stronger painkiller\", \"an antibiotic\", etc., but only if the doctor clearly implies it.\n"
      ++ "- DO NOT invent new medicines, doses, diagnoses, or causes.\n"
      ++ "- Only mention causes/suspicions the doctor clearly referred to (e.g. \"likely due to street food\", \"possibly gastritis\").\n"
      ++ "- This tool is for drafting; the doctor will always review and edit before use.\n"
      ++ "\n"
      ++ "Produce output EXACTLY in this structure (in English):\n"
      ++ "\n"
      ++ "### Assessment & Plan\n"
      ++ "\n"
      ++ "**Chief Complaint:**  \n"
      ++ "- (One or two bullet points summarizing the main problem.)\n"
      ++ "\n"
      ++ "**Probable Cause:**  \n"
      ++ "- (Only if the doctor clearly suggested a likely cause. If not mentioned, omit this entire section.)\n"
      ++ "\n"
      ++ "**Medication:**  \n"
      ++ "- (List each medicine and dosing instructions as understood. If any medicine name is unclear, use the verification warning.)\n"
      ++ "\n")
    ++ "**Diet Advice:**  \n"
    ++ ("- (Summarize any food / fluid instructions the doctor mentioned. If none, you may omit this section.)\n"
      ++ "\n"
      ++ "**Follow-up:**  \n"
      ++ "- (Summarize follow-up/review plan only if mentioned.)\n"
      ++ "\n"
      ++ "Now rewrite the following raw doctor speech into that structure, respecting all rules above:\n"
      ++ "\n"
      ++ "\"") := by
  simp only [medicalPromptPre, strAppend_assoc]

theorem promptSplit8 : medicalPromptPre =
    ("\n"
      ++ "You are a clinical assistant. Convert the doctor's spoken instructions (which may be in a mix of Kannada + English or other Indian language + English) into a clean, professional medical summary suitable for a patient's record.\n"
      ++ "\n"
      ++ "CONSTRAINTS:\n"
      ++ "- OUTPUT MUST BE IN CLEAR ENGLISH ONLY.\n"
      ++ "- DO NOT copy slang or raw phonetic Kannada/English like \"togo\", \"ಸ್ಟ್ರಾಂಗರ ಪೇಂಕಿಲರ್ಸ್\", etc.\n"
      ++ "- DO NOT output Chinese, Tamil, Hindi, or any other script in the final summary. English only.\n"
      ++ "- Convert all spoken content into polished, grammatically correct medical English.\n"
      ++ "- If a medicine name is clearly and correctly heard (e.g. \"Dolo 650\", \"Amoxicillin\"), you may include it.\n"
      ++ "- If the medicine name is unclear or distorted, DO NOT guess it. Instead write:\n"
      ++ "  \"⚠️ A medicine was prescribed; name not clearly captured from audio — please verify.\"\n"
      ++ "- You may generalize clearly implied medicines as \"a stronger painkiller\", \"an antibiotic\", etc., but only if the doctor clearly implies it.\n"
      ++ "- DO NOT invent new medicines, doses, diagnoses, or causes.\n"
      ++ "- Only mention causes/suspicions the doctor clearly referred to (e.g. \"likely due to street food\", \"possibly gastritis\").\n"
      ++ "- This tool is for drafting; the doctor will always review and edit before use.\n"
      ++ "\n"
      ++ "Produce output EXACTLY in this structure (in English):\n"
      ++ "\n"
      ++ "### Assessment & Plan\n"
      ++ "\n"
      ++ "**Chief Complaint:**  \n"
      ++ "- (One or two bullet points summarizing the main problem.)\n"
      ++ "\n"
      ++ "**Probable Cause:**  \n"
      ++ "- (Only if the doctor clearly suggested a likely cause. If not mentioned, omit this entire section.)\n"
      ++ "\n"
      ++ "**Medication:**  \n"
      ++ "- (List each medicine and dosing instructions as understood. If any medicine name is unclear, use the verification warning.)\n"
      ++ "\n"
      ++ "**Diet Advice:**  \n"
      ++ "- (Summarize any food / fluid instructions the doctor mentioned. If none, you may omit this section.)\n"
      ++ "\n")
    ++ "**Follow-up:**  \n"
    ++ ("- (Summarize follow-up/review plan only if mentioned.)\n"
      ++ "\n"
      ++ "Now rewrite the following raw doctor speech into that structure, respecting all rules above:\n"
      ++ "\n"
      ++ "\"") := by
  simp only [medicalPromptPre, strAppend_assoc]

theorem mapLanguage_unknown (s : String)
    (hs : s ∉ (["kn-en", "hi-en", "ta-en", "te-en", "en"] : List String)) :
    mapLanguage s = none := by
  simp only [List.mem_cons, List.not_mem_nil, or_false, not_or] at hs
  obtain ⟨h1, h2, h3, h4, h5⟩ := hs
  unfold mapLanguage
  split <;> simp_all

theorem fsCreate_mem_self (fs : Fs) (x : String) : x ∈ fsCreate fs x := by
  by_cases h : x ∈ fs <;> simp [fsCreate, h]

theorem fsCreate_mem_mono (fs : Fs) (x y : String) (h : y ∈ fs) : y ∈ fsCreate fs x := by
  by_cases hx : x ∈ fs <;> simp [fsCreate, hx, h]

theorem fsUnlink_self_not_mem (fs : Fs) (x : String) : x ∉ fsUnlink fs x := by
  simp [fsUnlink]

theorem fsUnlink_not_mem (fs : Fs) (x y : String) (h : y ∉ fs) : y ∉ fsUnlink fs x := by
  simp [fsUnlink, h]

theorem cleanupWav_removes (env : Env) (w : String) (fs : Fs)
    (hok : env.unlinkFails w = false) :
    w ∉ cleanupWav env (some w) fs := by
  by_cases h : w ∈ fs
  · simp [cleanupWav, fsExists, h, hok, fsUnlink_self_not_mem]
  · simp [cleanupWav, fsExists, h]

theorem cleanupWav_not_mem (env : Env) (wp : Option String) (fs : Fs) (y : String)
    (h : y ∉ fs) :
    y ∉ cleanupWav env wp fs := by
  cases wp with
  | none => simpa [cleanupWav] using h
  | some w =>
    by_cases hw : w ∈ fs
    · by_cases hu : env.unlinkFails w = true
      · simpa [cleanupWav, fsExists, hw, hu] using h
      · simp [cleanupWav, fsExists, hw, hu, fsUnlink_not_mem fs w y h]
    · simpa [cleanupWav, fsExists, hw] using h

theorem cleanupBlock_removes_input (env : Env) (p w : String) (fs : Fs)
    (hokp : env.unlinkFails p = false) :
    p ∉ cleanupBlock env (some p) (some w) fs := by
  by_cases hp : p ∈ fs
  · simp only [cleanupBlock, fsExists]
    rw [if_pos (by simpa using hp), hokp]
    simpa using cleanupWav_not_mem env (some w) (fsUnlink fs p) p (fsUnlink_self_not_mem fs p)
  · simp only [cleanupBlock, fsExists]
    rw [if_neg (by simpa using hp)]
    exact cleanupWav_not_mem env (some w) fs p hp

theorem cleanupBlock_removes_wav (env : Env) (p w : String) (fs : Fs)
    (hokp : env.unlinkFails p = false) (hokw : env.unlinkFails w = false) :
    w ∉ cleanupBlock env (some p) (some w) fs := by
  by_cases hp : p ∈ fs
  · simp only [cleanupBlock, fsExists]
    rw [if_pos (by simpa using hp), hokp]
    simpa using cleanupWav_removes env w (fsUnlink fs p) hokw
  · simp only [cleanupBlock, fsExists]
    rw [if_neg (by simpa using hp)]
    exact cleanupWav_removes env w fs hokw

theorem cleanupBlock_aborts (env : Env) (p w : String) (fs : Fs)
    (hp : p ∈ fs) (hfail : env.unlinkFails p = true) :
    cleanupBlock env (some p) (some w) fs = fs := by
  simp [cleanupBlock, fsExists, hp, hfail]

/-! The claims. -/

/-- Claim C1: for every request in which transcoding, transcription or summarization fails, the handler responds with exactly raw = "" and doctorSummary = "Processing failed."; the raw field is empty on every failure path, even when transcription succeeded and only summarization failed. -/
theorem C1_failure_response (env : Env) (req : Request) (fs0 : Fs) (p : String)
    (hf : req.file = some p)
    (hfail : env.transcodeOk = false ∨ env.transcriptionText = none ∨ env.summaryText = none) :
    (transcribeHandler env req fs0).response = failureResponse ∧
    (transcribeHandler env req fs0).response.raw = "" := by
  have hmain : (transcribeHandler env req fs0).response = failureResponse := by
    rcases env with ⟨tok, ttext, stext, uf⟩
    rcases hfail with h | h | h <;> simp only at h <;> subst h
    · simp [transcribeHandler, hf]
    · cases tok <;> simp [transcribeHandler, hf]
    · cases tok <;> rcases ttext with _ | t <;> simp [transcribeHandler, hf]
  exact ⟨hmain, by rw [hmain]; rfl⟩

/-- Witness for C1: summarization alone fails and the failure response with empty raw is sent. -/
theorem C1_failure_response_witness :
    (c1WEnv.transcodeOk = false ∨ c1WEnv.transcriptionText = none ∨ c1WEnv.summaryText = none) ∧
    (transcribeHandler c1WEnv ⟨some "u", none⟩ []).response = failureResponse ∧
    (transcribeHandler c1WEnv ⟨some "u", none⟩ []).response.raw = "" :=
  ⟨Or.inr (Or.inr rfl),
   C1_failure_response c1WEnv ⟨some "u", none⟩ [] "u" rfl (Or.inr (Or.inr rfl))⟩

/-- Counterexample to Claim C2 as stated: when deleting the original upload throws (a cleanup error the code swallows), both the original upload and the transcoded WAV still exist after the handler returns. -/
theorem C2_cleanup_counterexample :
    (⟨some "u", none⟩ : Request).file = some "u" ∧
    "u" ∈ (transcribeHandler c2BadEnv ⟨some "u", none⟩ []).fs ∧
    ("u" ++ ".wav") ∈ (transcribeHandler c2BadEnv ⟨some "u", none⟩ []).fs := by
  refine ⟨rfl, ?_, ?_⟩ <;> decide

/-- Claim C2 as amended: on every exit path the cleanup block runs before the response; in any run where no deletion raises, neither the original upload nor the transcoded file exists afterwards. -/
theorem C2_cleanup_amended (env : Env) (req : Request) (fs0 : Fs) (p : String)
    (hf : req.file = some p)
    (hok : ∀ q, env.unlinkFails q = false) :
    p ∉ (transcribeHandler env req fs0).fs ∧
    (p ++ ".wav") ∉ (transcribeHandler env req fs0).fs := by
  rcases env with ⟨tok, ttext, stext, uf⟩
  simp only at hok
  cases tok <;> rcases ttext with _ | t <;> rcases stext with _ | s <;>
    simp only [transcribeHandler, hf] <;>
    exact ⟨cleanupBlock_removes_input _ _ _ _ (hok p),
           cleanupBlock_removes_wav _ _ _ _ (hok p) (hok (p ++ ".wav"))⟩

/-- Witness for the amended C2: a successful pipeline with working deletions leaves neither temp file on disk. -/
theorem C2_cleanup_amended_witness :
    (∀ q, c2OkEnv.unlinkFails q = false) ∧
    "u" ∉ (transcribeHandler c2OkEnv ⟨some "u", none⟩ []).fs ∧
    ("u" ++ ".wav") ∉ (transcribeHandler c2OkEnv ⟨some "u", none⟩ []).fs :=
  ⟨fun _ => rfl, C2_cleanup_amended c2OkEnv ⟨some "u", none⟩ [] "u" rfl (fun _ => rfl)⟩

/-- Claim C3: a request with no audio file gets the exact response raw = "" / "No audio received." immediately: the file system is untouched and no transcode, transcription or chat call is attempted. -/
theorem C3_no_audio (env : Env) (req : Request) (fs0 : Fs) (hf : req.file = none) :
    transcribeHandler env req fs0 = ⟨noAudioResponse, fs0, emptyTrace⟩ := by
  simp [transcribeHandler, hf]

/-- Witness for C3 at a concrete request with no file. -/
theorem C3_no_audio_witness :
    (⟨none, some "kn-en"⟩ : Request).file = none ∧
    transcribeHandler c3WEnv ⟨none, some "kn-en"⟩ ["other"] =
      ⟨noAudioResponse, ["other"], emptyTrace⟩ :=
  ⟨rfl, C3_no_audio c3WEnv ⟨none, some "kn-en"⟩ ["other"] rfl⟩

/-- Claim C4: mapLanguage is total and implements exactly the table kn-en/hi-en/ta-en/te-en/en, with auto and every other tag mapping to the auto-detect sentinel (none); the transcription payload carries the language field exactly when the mapped code is not none, i.e. its language component is mapLanguage of the trimmed, defaulted UI tag. -/
theorem C4_language_mapping (env : Env) (req : Request) (fs0 : Fs) (p : String)
    (hf : req.file = some p) (ht : env.transcodeOk = true) :
    (mapLanguage "kn-en" = some "kn" ∧ mapLanguage "hi-en" = some "hi" ∧
     mapLanguage "ta-en" = some "ta" ∧ mapLanguage "te-en" = some "te" ∧
     mapLanguage "en" = some "en" ∧ mapLanguage "auto" = none) ∧
    (∀ s : String, s ∉ (["kn-en", "hi-en", "ta-en", "te-en", "en"] : List String) →
      mapLanguage s = none) ∧
    (transcribeHandler env req fs0).trace.transcriptionCalls =
      [⟨"gpt-4o-transcribe", mapLanguage (jsTrim (jsOr req.language "kn-en"))⟩] := by
  refine ⟨⟨rfl, rfl, rfl, rfl, rfl, rfl⟩, mapLanguage_unknown, ?_⟩
  rcases env with ⟨tok, ttext, stext, uf⟩
  simp only at ht
  subst ht
  rcases ttext with _ | t <;> rcases stext with _ | s <;> simp [transcribeHandler, hf]

/-- Witness for C4 at the unrecognized tag "xx-yy": the call is made without a language hint. -/
theorem C4_language_mapping_witness :
    c4WEnv.transcodeOk = true ∧
    ((mapLanguage "kn-en" = some "kn" ∧ mapLanguage "hi-en" = some "hi" ∧
      mapLanguage "ta-en" = some "ta" ∧ mapLanguage "te-en" = some "te" ∧
      mapLanguage "en" = some "en" ∧ mapLanguage "auto" = none) ∧
     (∀ s : String, s ∉ (["kn-en", "hi-en", "ta-en", "te-en", "en"] : List String) →
       mapLanguage s = none) ∧
     (transcribeHandler c4WEnv ⟨some "u", some "xx-yy"⟩ []).trace.transcriptionCalls =
       [⟨"gpt-4o-transcribe", mapLanguage (jsTrim (jsOr (some "xx-yy") "kn-en"))⟩]) :=
  ⟨rfl, C4_language_mapping c4WEnv ⟨some "u", some "xx-yy"⟩ [] "u" rfl rfl⟩

/-- Claim C5: whenever the pipeline reaches summarization with transcript rawText, exactly one chat request is sent, to model gpt-4o with temperature 0, and its prompt embeds the transcript verbatim together with the fixed constraint lines (English-only, no invented medicines/doses/diagnoses/causes, the verification-warning placeholder, and the fixed section structure). -/
theorem C5_summary_request (env : Env) (req : Request) (fs0 : Fs) (p : String)
    (txt : Option String) (rawText : String)
    (hf : req.file = some p) (ht : env.transcodeOk = true)
    (htx : env.transcriptionText = some txt) (hraw : rawText = jsOr txt "") :
    (transcribeHandler env req fs0).trace.chatCalls = [⟨"gpt-4o", 0, medicalPrompt rawText⟩] ∧
    (∃ a b, medicalPrompt rawText = a ++ rawText ++ b) ∧
    (∃ a b, medicalPrompt rawText = a ++ "- OUTPUT MUST BE IN CLEAR ENGLISH ONLY.\n" ++ b) ∧
    (∃ a b, medicalPrompt rawText = a ++ "- DO NOT invent new medicines, doses, diagnoses, or causes.\n" ++ b) ∧
    (∃ a b, medicalPrompt rawText = a ++ "  \"⚠️ A medicine was prescribed; name not clearly captured from audio — please verify.\"\n" ++ b) ∧
    (∃ a b, medicalPrompt rawText = a ++ "**Chief Complaint:**  \n" ++ b) ∧
    (∃ a b, medicalPrompt rawText = a ++ "**Probable Cause:**  \n" ++ b) ∧
    (∃ a b, medicalPrompt rawText = a ++ "**Medication:**  \n" ++ b) ∧
    (∃ a b, medicalPrompt rawText = a ++ "**Diet Advice:**  \n" ++ b) ∧
    (∃ a b, medicalPrompt rawText = a ++ "**Follow-up:**  \n" ++ b) ∧
    True := by
  subst hraw
  refine ⟨?_, ⟨medicalPromptPre, medicalPromptSuf, rfl⟩,
    medicalPrompt_mentions_of_split _ _ _ _ promptSplit1,
    medicalPrompt_mentions_of_split _ _ _ _ promptSplit2,
    medicalPrompt_mentions_of_split _ _ _ _ promptSplit3,
    medicalPrompt_mentions_of_split _ _ _ _ promptSplit4,
    medicalPrompt_mentions_of_split _ _ _ _ promptSplit5,
    medicalPrompt_mentions_of_split _ _ _ _ promptSplit6,
    medicalPrompt_mentions_of_split _ _ _ _ promptSplit7,
    medicalPrompt_mentions_of_split _ _ _ _ promptSplit8, trivial⟩
  rcases env with ⟨tok, ttext, stext, uf⟩
  simp only at ht htx
  subst ht; subst htx
  rcases stext with _ | s <;> simp [transcribeHandler, hf]

/-- Witness for C5 at a concrete transcript. -/
theorem C5_summary_request_witness :
    (transcribeHandler c5WEnv ⟨some "u", none⟩ []).trace.chatCalls
      = [⟨"gpt-4o", 0, medicalPrompt (jsOr (some "bp and stomach pain") "")⟩] ∧
    (∃ a b, medicalPrompt (jsOr (some "bp and stomach pain") "")
      = a ++ (jsOr (some "bp and stomach pain") "") ++ b) ∧
    (∃ a b, medicalPrompt (jsOr (some "bp and stomach pain") "") = a ++ "- OUTPUT MUST BE IN CLEAR ENGLISH ONLY.\n" ++ b) ∧
    (∃ a b, medicalPrompt (jsOr (some "bp and stomach pain") "") = a ++ "- DO NOT invent new medicines, doses, diagnoses, or causes.\n" ++ b) ∧
    (∃ a b, medicalPrompt (jsOr (some "bp and stomach pain") "") = a ++ "  \"⚠️ A medicine was prescribed; name not clearly captured from audio — please verify.\"\n" ++ b) ∧
    (∃ a b, medicalPrompt (jsOr (some "bp and stomach pain") "") = a ++ "**Chief Complaint:**  \n" ++ b) ∧
    (∃ a b, medicalPrompt (jsOr (some "bp and stomach pain") "") = a ++ "**Probable Cause:**  \n" ++ b) ∧
    (∃ a b, medicalPrompt (jsOr (some "bp and stomach pain") "") = a ++ "**Medication:**  \n" ++ b) ∧
    (∃ a b, medicalPrompt (jsOr (some "bp and stomach pain") "") = a ++ "**Diet Advice:**  \n" ++ b) ∧
    (∃ a b, medicalPrompt (jsOr (some "bp and stomach pain") "") = a ++ "**Follow-up:**  \n" ++ b) ∧
    True :=
  C5_summary_request c5WEnv ⟨some "u", none⟩ [] "u" (some "bp and stomach pain")
    (jsOr (some "bp and stomach pain") "") rfl rfl rfl rfl

/-- Claim C6: every response of the endpoint is sent with HTTP status 200 and a raw/doctorSummary JSON body; success or failure is encoded only in the body. -/
theorem C6_always_http200 (env : Env) (req : Request) (fs0 : Fs) :
    (transcribeHandler env req fs0).response.status = 200 ∧
    (∃ r d, (transcribeHandler env req fs0).response = ⟨200, r, d⟩) := by
  have hs : (transcribeHandler env req fs0).response.status = 200 := by
    rcases env with ⟨tok, ttext, stext, uf⟩
    rcases req with ⟨file, lang⟩
    rcases file with _ | p
    · simp [transcribeHandler, noAudioResponse]
    · cases tok <;> rcases ttext with _ | t <;> rcases stext with _ | s <;>
        simp [transcribeHandler, noAudioResponse, failureResponse]
  refine ⟨hs, (transcribeHandler env req fs0).response.raw,
    (transcribeHandler env req fs0).response.doctorSummary, ?_⟩
  rcases hresp : (transcribeHandler env req fs0).response with ⟨st, r, d⟩
  rw [hresp] at hs
  simp_all

/-- Claim C7: a deletion error during cleanup is swallowed: the response equals the response of the same run in which every deletion succeeds, on the success path and on every failure path. -/
theorem C7_cleanup_error_swallowed (env : Env) (req : Request) (fs0 : Fs) :
    (transcribeHandler env req fs0).response =
      (transcribeHandler ⟨env.transcodeOk, env.transcriptionText, env.summaryText,
        fun _ => false⟩ req fs0).response := by
  rcases env with ⟨tok, ttext, stext, uf⟩
  rcases req with ⟨file, lang⟩
  rcases file with _ | p
  · simp [transcribeHandler]
  · cases tok <;> rcases ttext with _ | t <;> rcases stext with _ | s <;>
      simp [transcribeHandler]

/-- Claim C8: an absent language field defaults to kn-en before trimming, so the transcription call carries the Kannada hint "kn"; an empty-string language is falsy and also yields "kn", while a whitespace-only language trims to the unrecognized empty tag and yields auto-detect. -/
theorem C8_language_default (env : Env) (fs0 : Fs) (p ws : String)
    (ht : env.transcodeOk = true) (hne : ws ≠ "") (htrim : jsTrim ws = "") :
    (transcribeHandler env ⟨some p, none⟩ fs0).trace.transcriptionCalls =
      [⟨"gpt-4o-transcribe", some "kn"⟩] ∧
    (transcribeHandler env ⟨some p, some ""⟩ fs0).trace.transcriptionCalls =
      [⟨"gpt-4o-transcribe", some "kn"⟩] ∧
    (transcribeHandler env ⟨some p, some ws⟩ fs0).trace.transcriptionCalls =
      [⟨"gpt-4o-transcribe", none⟩] := by
  have hkn : jsTrim "kn-en" = "kn-en" := by decide
  have hws : jsOr (some ws) "kn-en" = ws := by simp [jsOr, hne]
  rcases env with ⟨tok, ttext, stext, uf⟩
  simp only at ht
  subst ht
  refine ⟨?_, ?_, ?_⟩ <;> rcases ttext with _ | t <;> rcases stext with _ | s <;>
    simp [transcribeHandler, jsOr, hne, hkn, htrim, mapLanguage]

/-- Witness for C8 with the whitespace-only language " ". -/
theorem C8_language_default_witness :
    c8WEnv.transcodeOk = true ∧ (" " : String) ≠ "" ∧ jsTrim " " = "" ∧
    ((transcribeHandler c8WEnv ⟨some "u", none⟩ []).trace.transcriptionCalls =
       [⟨"gpt-4o-transcribe", some "kn"⟩] ∧
     (transcribeHandler c8WEnv ⟨some "u", some ""⟩ []).trace.transcriptionCalls =
       [⟨"gpt-4o-transcribe", some "kn"⟩] ∧
     (transcribeHandler c8WEnv ⟨some "u", some " "⟩ []).trace.transcriptionCalls =
       [⟨"gpt-4o-transcribe", none⟩]) :=
  ⟨rfl, by decide, by decide,
   C8_language_default c8WEnv [] "u" " " rfl (by decide) (by decide)⟩

/-- Claim C9 (code bug evidence): the Express app registers POST only at /transcribe, yet the browser client posts to /process-audio, so the path the client uses is not handled by the pipeline. -/
theorem C9_process_audio_unregistered :
    clientUploadPath ∉ registeredPostRoutes ∧
    registeredPostRoutes = ["/transcribe"] ∧
    clientUploadPath = "/process-audio" := by
  refine ⟨?_, rfl, rfl⟩
  decide

/-- Claim C10: on both cleanup paths the two deletions run inside one guarded block, so if deleting the original upload throws, the transcoded WAV is never deleted and remains on disk after the handler returns. -/
theorem C10_partial_cleanup (env : Env) (req : Request) (fs0 : Fs) (p : String)
    (hf : req.file = some p) (ht : env.transcodeOk = true)
    (hfail : env.unlinkFails p = true) :
    (p ++ ".wav") ∈ (transcribeHandler env req fs0).fs := by
  have hwav : (p ++ ".wav") ∈ fsCreate (fsCreate fs0 p) (p ++ ".wav") :=
    fsCreate_mem_self _ _
  have hp : p ∈ fsCreate (fsCreate fs0 p) (p ++ ".wav") :=
    fsCreate_mem_mono _ _ _ (fsCreate_mem_self fs0 p)
  have habort := cleanupBlock_aborts env p (p ++ ".wav")
    (fsCreate (fsCreate fs0 p) (p ++ ".wav")) hp hfail
  rcases htx : env.transcriptionText with _ | t <;>
    rcases hsm : env.summaryText with _ | s <;>
      simp [transcribeHandler, hf, ht, htx, hsm, habort, hwav]

/-- Witness for C10: deletion of the upload fails and the WAV file survives. -/
theorem C10_partial_cleanup_witness :
    c10WEnv.transcodeOk = true ∧ c10WEnv.unlinkFails "u" = true ∧
    ("u" ++ ".wav") ∈ (transcribeHandler c10WEnv ⟨some "u", none⟩ []).fs :=
  ⟨rfl, by decide, C10_partial_cleanup c10WEnv ⟨some "u", none⟩ [] "u" rfl rfl (by decide)⟩

end DoctorVoice
